import Mathlib

/-!
Verification of the ardilla CRUD layer (src/ardilla/): a shallow embedding of
the model declarations (models.py), the blocking Crud facade (crud.py) and the
suspending AsyncCrud facade (asyncio/crud.py), together with a model of the
SQLite store capability that the spec treats as an external collaborator.
Repository modules that are referenced but absent (queries.py, schemas.py,
abc.py) are modelled from the specification and marked as such in their doc
comments.
-/

deriving instance DecidableEq for Except

namespace Ardilla

/-- SQLite values as they occur in this embedding: NULL, INTEGER and TEXT. -/
inductive Val where
  | null
  | int (i : Int)
  | text (s : String)
deriving DecidableEq, Repr

/-- Keyword arguments / column-name-to-value lists, in the order supplied. -/
abbrev Kws := List (String × Val)

/-- Python dict-style lookup of the first binding of a key. -/
def lookupCell (k : String) (cells : Kws) : Option Val :=
  (cells.find? (fun c => c.1 == k)).map (fun c => c.2)

/-- Character-list prefix test. -/
def chPre : List Char → List Char → Bool
  | [], _ => true
  | _ :: _, [] => false
  | a :: as, b :: bs => a == b && chPre as bs

/-- Character-list substring test. -/
def chContains (n : List Char) : List Char → Bool
  | [] => chPre n []
  | b :: bs => chPre n (b :: bs) || chContains n bs

/-- Python substring membership test: `needle in hay`. -/
def pyIn (needle hay : String) : Bool :=
  chContains needle.toList hay.toList

/-- Errors observable from the embedded code: Python builtins (KeyError,
ValueError, IndexError), sqlite3 store errors (IntegrityError,
OperationalError) and ardilla's own error types. -/
inductive DBError where
  | keyError (msg : String)
  | valueError (msg : String)
  | indexError (msg : String)
  | integrityError (msg : String)
  | operationalError (msg : String)
  | queryExecutionError (msg : String)
  | badQueryError (msg : String)
  | modelIntegrityError (msg : String)
deriving DecidableEq, Repr

/-- A stored row: the implicit SQLite rowid plus the declared columns. -/
structure StoredRow where
  rowid : Nat
  cells : Kws
deriving DecidableEq, Repr

/-- The state of one table of the store. -/
structure Table where
  rows : List StoredRow
  nextRowid : Nat
deriving DecidableEq, Repr

/-- The per-model data the Crud facade reads: `Model.__name__`,
`__tablename__`, the declared field names in declaration order
(`Model.__fields__` / `CrudABC.columns`) and `Model.__pk__`. -/
structure CrudCtx where
  modelName : String
  tablename : String
  fields : List String
  pk : Option String
deriving DecidableEq, Repr

/-- A model instance: `obj.dict()` in field-declaration order plus the
private `__rowid__` attribute. -/
structure ModelInst where
  cells : Kws
  rowid : Option Int
deriving DecidableEq, Repr

/-- SQL equality of two values: comparisons with NULL are never true. -/
def cellEq : Val → Val → Bool
  | .null, _ => false
  | _, .null => false
  | a, b => a == b

/-- Value of a column reference in a WHERE clause: the implicit `rowid`
column or a declared column of the row. -/
def cellValue (r : StoredRow) (k : String) : Option Val :=
  if k == "rowid" then some (.int (r.rowid : Int)) else lookupCell k r.cells

/-- A column reference the store accepts: a declared column or `rowid`. -/
def goodKey (C : CrudCtx) (k : String) : Bool :=
  C.fields.contains k || k == "rowid"

/-- First column reference of a conjunctive predicate the store rejects. -/
def firstBadKey (C : CrudCtx) (kws : Kws) : Option String :=
  (kws.find? (fun kv => !(goodKey C kv.1))).map (fun kv => kv.1)

/-- Row satisfaction of a conjunctive equality predicate `k1 = ? AND ...`. -/
def rowMatches (kws : Kws) (r : StoredRow) : Bool :=
  kws.all (fun kv =>
    match cellValue r kv.1 with
    | some w => cellEq w kv.2
    | none => false)

/-- Store model (external collaborator, spec §6): evaluate a
`SELECT rowid, * FROM t WHERE (k1 = ? AND ...)` statement; an undeclared
column name makes the store raise OperationalError. -/
def execSelect (C : CrudCtx) (kws : Kws) (t : Table) :
    Except DBError (List StoredRow) :=
  match firstBadKey C kws with
  | some k => .error (.operationalError ("no such column: " ++ k))
  | none => .ok (t.rows.filter (rowMatches kws))

/-- Full row built by an INSERT naming the columns of `kws`: columns not
named receive NULL. -/
def mkCells (cols : List String) (kws : Kws) : Kws :=
  cols.map (fun c => (c, (lookupCell c kws).getD .null))

/-- Uniqueness conflict of an insert against the declared primary key:
a non-NULL primary-key value already present in some stored row. -/
def insertConflict (C : CrudCtx) (t : Table) (cells : Kws) : Bool :=
  match C.pk with
  | none => false
  | some p =>
    match lookupCell p cells with
    | some v =>
      v != .null && t.rows.any (fun r => lookupCell p r.cells == some v)
    | none => false

/-- Store model (spec §6): evaluate
`INSERT [OR IGNORE] INTO t (cols) VALUES (...) RETURNING *`:
OperationalError on an undeclared column, IntegrityError on a uniqueness
conflict unless OR IGNORE suppresses it (then no row is returned), else the
new row is appended with a fresh rowid and returned. -/
def execInsert (C : CrudCtx) (ignore : Bool) (kws : Kws) (t : Table) :
    Except DBError (Table × Option StoredRow) :=
  match firstBadKey C kws with
  | some k =>
    .error (.operationalError
      ("table " ++ C.tablename ++ " has no column named " ++ k))
  | none =>
    let cells := mkCells C.fields kws
    if insertConflict C t cells then
      if ignore then .ok (t, none)
      else
        .error (.integrityError
          ("UNIQUE constraint failed: " ++ C.tablename ++ "." ++ C.pk.getD ""))
    else
      let r : StoredRow := { rowid := t.nextRowid, cells := cells }
      .ok ({ rows := t.rows ++ [r], nextRowid := t.nextRowid + 1 }, some r)

/-- Rows kept by an `INSERT OR REPLACE` carrying the cells of a new row:
rows whose primary-key value collides with the new non-NULL one are removed. -/
def replKeep (C : CrudCtx) (cells : Kws) (r : StoredRow) : Bool :=
  match C.pk with
  | none => true
  | some p =>
    match lookupCell p cells with
    | some v => if v == .null then true else !(lookupCell p r.cells == some v)
    | none => true

/-- Table after an `INSERT OR REPLACE` of the given full row. -/
def replacedTable (C : CrudCtx) (cells : Kws) (t : Table) : Table :=
  { rows := t.rows.filter (replKeep C cells) ++
      [{ rowid := t.nextRowid, cells := cells }],
    nextRowid := t.nextRowid + 1 }

/-- Store model (spec §6): evaluate
`INSERT OR REPLACE INTO t (cols) VALUES (...)` with positional parameters:
OperationalError on an undeclared column or a parameter-count mismatch, else
conflict-replacing insert of the row `cols` zipped with `vals`. -/
def execReplaceCols (C : CrudCtx) (cols : List String) (vals : List Val)
    (t : Table) : Except DBError Table :=
  match cols.find? (fun c => !(C.fields.contains c)) with
  | some c =>
    .error (.operationalError
      ("table " ++ C.tablename ++ " has no column named " ++ c))
  | none =>
    if cols.length != vals.length then
      .error (.operationalError ("incorrect number of bindings supplied"))
    else .ok (replacedTable C (mkCells C.fields (cols.zip vals)) t)

/-- Store model (spec §6): evaluate
`DELETE FROM t WHERE (k1 = ? AND k2 = ? AND ...)`. -/
def execDeleteWhere (C : CrudCtx) (kws : Kws) (t : Table) :
    Except DBError Table :=
  match firstBadKey C kws with
  | some k => .error (.operationalError ("no such column: " ++ k))
  | none => .ok { t with rows := t.rows.filter (fun r => !(rowMatches kws r)) }

/-- Store model (spec §6): evaluate `DELETE FROM t WHERE col IN (...)`,
where `col` may be the implicit rowid column. -/
def execDeleteIn (C : CrudCtx) (col : String) (vals : List Val) (t : Table) :
    Except DBError Table :=
  if !(goodKey C col) then
    .error (.operationalError ("no such column: " ++ col))
  else
    .ok { t with rows := t.rows.filter (fun r =>
      !(vals.any (fun v =>
        match cellValue r col with
        | some w => cellEq w v
        | none => false))) }

/-- Modelled from the spec: `CrudABC._row2obj` lives in src/ardilla/abc.py,
which is not under src/. Spec §4.4 (RowMapper): converts a row to a model
instance, attaching the implicit row identity when the read or insert
supplies one. -/
def row2obj (cells : Kws) (rid : Option Int) : ModelInst :=
  { cells := cells, rowid := rid }

/-- Mapping of a row produced by a `SELECT rowid, *` read: the identity comes
with the row (spec §4.4). -/
def readObj (r : StoredRow) : ModelInst :=
  row2obj r.cells (some (r.rowid : Int))

/-- Outcome of one Crud call: the Python result or raised error, the table
state afterwards, and the statements that reached the store (text plus
ordered bound parameters). -/
structure Outcome (α : Type) where
  res : Except DBError α
  tbl : Table
  sent : List (String × List Val)
deriving DecidableEq, Repr

/-- Statement text and parameters built by `AsyncCrud._get_or_none_any`
(src/ardilla/asyncio/crud.py:18-27); `zip(*kws.items())` raises ValueError
when no keywords are supplied. -/
def asyncGetOrNoneAnyStmt (C : CrudCtx) (many : Bool) (kws : Kws) :
    Except DBError (String × List Val) :=
  if kws.isEmpty then
    .error (.valueError ("not enough values to unpack (expected 2, got 0)"))
  else
    let keys := kws.map (fun kv => kv.1)
    let vals := kws.map (fun kv => kv.2)
    let to_match := String.intercalate (" AND ") (keys.map (fun k => k ++ " = ?"))
    let limit := if !many then "LIMIT 1;" else ";"
    .ok ("SELECT rowid, * FROM " ++ C.tablename ++ " WHERE (" ++ to_match
      ++ ") " ++ limit, vals)

/-- `AsyncCrud.get_or_none` (asyncio/crud.py:41-43 via `_get_or_none_any`
with many=False): builds the statement with no keyword validation, executes
it, and maps `fetchone` through `_row2obj`. -/
def async_get_or_none (C : CrudCtx) (kws : Kws) (t : Table) :
    Outcome (Option ModelInst) :=
  match asyncGetOrNoneAnyStmt C false kws with
  | .error e => { res := .error e, tbl := t, sent := [] }
  | .ok (q, vals) =>
    match execSelect C kws t with
    | .error e => { res := .error e, tbl := t, sent := [(q, vals)] }
    | .ok rows =>
      { res := .ok (rows.head?.map readObj), tbl := t, sent := [(q, vals)] }

/-- `AsyncCrud.get_many` (asyncio/crud.py:100-102 via `_get_or_none_any`
with many=True): no ordering or limit options exist in this variant and no
keyword validation is performed. -/
def async_get_many (C : CrudCtx) (kws : Kws) (t : Table) :
    Outcome (List ModelInst) :=
  match asyncGetOrNoneAnyStmt C true kws with
  | .error e => { res := .error e, tbl := t, sent := [] }
  | .ok (q, vals) =>
    match execSelect C kws t with
    | .error e => { res := .error e, tbl := t, sent := [(q, vals)] }
    | .ok rows =>
      { res := .ok (rows.map readObj), tbl := t, sent := [(q, vals)] }

/-- Statement text and parameters built by `AsyncCrud._do_insert`
(asyncio/crud.py:45-52). -/
def asyncInsertStmt (C : CrudCtx) (ignore returning : Bool) (kws : Kws) :
    Except DBError (String × List Val) :=
  if kws.isEmpty then
    .error (.valueError ("not enough values to unpack (expected 2, got 0)"))
  else
    let keys := kws.map (fun kv => kv.1)
    let vals := kws.map (fun kv => kv.2)
    let placeholders := String.intercalate (", ") (List.replicate keys.length "?")
    let cols := String.intercalate (", ") keys
    .ok ((if ignore then "INSERT OR IGNORE " else "INSERT ")
      ++ "INTO " ++ C.tablename ++ " (" ++ cols ++ ") VALUES ("
      ++ placeholders ++ ")"
      ++ (if returning then " RETURNING *;" else ";"), vals)

/-- `AsyncCrud._do_insert` (asyncio/crud.py:45-69): executes the insert,
translating the store's IntegrityError into QueryExecutionError and letting
every other store error propagate unchanged; returns the new instance (with
`cur.lastrowid` attached) only when a row came back. -/
def async_do_insert (C : CrudCtx) (ignore returning : Bool) (kws : Kws)
    (t : Table) : Outcome (Option ModelInst) :=
  match asyncInsertStmt C ignore returning kws with
  | .error e => { res := .error e, tbl := t, sent := [] }
  | .ok (q, vals) =>
    match execInsert C ignore kws t with
    | .error (.integrityError m) =>
      { res := .error (.queryExecutionError m), tbl := t, sent := [(q, vals)] }
    | .error e => { res := .error e, tbl := t, sent := [(q, vals)] }
    | .ok (t2, some r) =>
      if returning then
        { res := .ok (some (row2obj r.cells (some (r.rowid : Int)))),
          tbl := t2, sent := [(q, vals)] }
      else { res := .ok none, tbl := t2, sent := [(q, vals)] }
    | .ok (t2, none) => { res := .ok none, tbl := t2, sent := [(q, vals)] }

/-- `AsyncCrud.insert` (asyncio/crud.py:71-79). -/
def async_insert (C : CrudCtx) (kws : Kws) (t : Table) :
    Outcome (Option ModelInst) :=
  async_do_insert C false true kws t

/-- `AsyncCrud.insert_or_ignore` (asyncio/crud.py:81-83). -/
def async_insert_or_ignore (C : CrudCtx) (kws : Kws) (t : Table) :
    Outcome (Option ModelInst) :=
  async_do_insert C true true kws t

/-- `AsyncCrud.get_or_create` (asyncio/crud.py:85-92): `get_or_none`, then on
a miss `insert_or_ignore` with `created = True`; model instances are always
truthy in Python, so `if not result` is exactly `result is None`. -/
def async_get_or_create (C : CrudCtx) (kws : Kws) (t : Table) :
    Outcome (Option ModelInst × Bool) :=
  let o1 := async_get_or_none C kws t
  match o1.res with
  | .error e => { res := .error e, tbl := o1.tbl, sent := o1.sent }
  | .ok (some m) =>
    { res := .ok (some m, false), tbl := o1.tbl, sent := o1.sent }
  | .ok none =>
    let o2 := async_insert_or_ignore C kws o1.tbl
    match o2.res with
    | .error e => { res := .error e, tbl := o2.tbl, sent := o1.sent ++ o2.sent }
    | .ok r =>
      { res := .ok (r, true), tbl := o2.tbl, sent := o1.sent ++ o2.sent }

/-- `AsyncCrud.save_one` (asyncio/crud.py:104-116): an INSERT OR REPLACE over
the columns and values of `obj.dict()`; the statement text keeps the source's
triple-quoted whitespace. -/
def async_save_one (C : CrudCtx) (obj : ModelInst) (t : Table) :
    Outcome Bool :=
  let cols := obj.cells.map (fun kv => kv.1)
  let vals := obj.cells.map (fun kv => kv.2)
  let placeholders := String.intercalate (", ") (List.replicate cols.length "?")
  let q := "\n        INSERT OR REPLACE INTO " ++ C.tablename ++ " ("
    ++ String.intercalate (", ") cols ++ ") VALUES (" ++ placeholders
    ++ ");\n        "
  match execReplaceCols C cols vals t with
  | .error e => { res := .error e, tbl := t, sent := [(q, vals)] }
  | .ok t2 => { res := .ok true, tbl := t2, sent := [(q, vals)] }

/-- Store model (spec §6): `executemany` runs the same replace statement once
per parameter tuple, in order, stopping at the first error. -/
def execManyReplace (C : CrudCtx) (valsList : List (List Val)) (t : Table) :
    Except DBError Table :=
  match valsList with
  | [] => .ok t
  | vals :: rest =>
    match execReplaceCols C C.fields vals t with
    | .error e => .error e
    | .ok t2 => execManyReplace C rest t2

/-- `AsyncCrud.save_many` (asyncio/crud.py:118-128): one batched INSERT OR
REPLACE over `self.columns` (the declared field list, from the abc.py module
absent from src/, modelled from spec §2/§3 as the ordered column list),
executed with `executemany` over each object's `obj.dict()` values. -/
def async_save_many (C : CrudCtx) (objs : List ModelInst) (t : Table) :
    Outcome Bool :=
  let placeholders :=
    String.intercalate (", ") (List.replicate C.fields.length "?")
  let q := "INSERT OR REPLACE INTO " ++ C.tablename ++ " ("
    ++ String.intercalate (", ") C.fields ++ ") VALUES (" ++ placeholders ++ ");"
  let valsList := objs.map (fun o => o.cells.map (fun kv => kv.2))
  match execManyReplace C valsList t with
  | .error e => { res := .error e, tbl := t, sent := [(q, valsList.flatten)] }
  | .ok t2 => { res := .ok true, tbl := t2, sent := [(q, valsList.flatten)] }

/-- Declared fields of an instance whose name contains the substring "id"
(Python `"id" in k`), as computed by `AsyncCrud.delete_one`. -/
def idColsOf (obj : ModelInst) : List String :=
  (obj.cells.map (fun kv => kv.1)).filter (fun k => pyIn "id" k)

/-- Store model (spec §6): evaluate `DELETE FROM t WHERE (k1 = ?, k2 = ?);`
as built by the suspending delete_one: an empty predicate list is a syntax
error, two or more comma-separated equalities form a misused row value, and a
single equality deletes the matching rows. -/
def execDeleteCommaList (C : CrudCtx) (preds : Kws) (t : Table) :
    Except DBError Table :=
  match preds with
  | [] => .error (.operationalError ("near \")\": syntax error"))
  | [kv] => execDeleteWhere C [kv] t
  | _ => .error (.operationalError ("row value misused"))

/-- `AsyncCrud.delete_one` (asyncio/crud.py:130-144): matches only on the
fields whose name contains "id" (its own docstring documents this), joining
the equalities with ", ", and never consults the primary key or the captured
rowid. -/
def async_delete_one (C : CrudCtx) (obj : ModelInst) (t : Table) :
    Outcome Bool :=
  let id_cols := idColsOf obj
  let placeholders :=
    String.intercalate (", ") (id_cols.map (fun k => k ++ " = ?"))
  let vals := id_cols.map (fun k => (lookupCell k obj.cells).getD .null)
  let q := "DELETE FROM " ++ C.tablename ++ " WHERE (" ++ placeholders ++ ");"
  match execDeleteCommaList C (id_cols.zip vals) t with
  | .error e => { res := .error e, tbl := t, sent := [(q, vals)] }
  | .ok t2 => { res := .ok true, tbl := t2, sent := [(q, vals)] }

/-- Python truthiness of `obj.__rowid__` as tested by
`all(obj.__rowid__ for obj in objs)`: None and 0 are falsy. -/
def rowidTruthy : Option Int → Bool
  | some n => n != 0
  | none => false

/-- `AsyncCrud.delete_many` (asyncio/crud.py:146-166): IndexError on an empty
argument list; rowid membership when every object's `__rowid__` is truthy;
otherwise, when the model has a truthy `__pk__`, membership on the column
literally named "id" (the source interpolates `id`, not the primary-key
name) with the primary-key values as parameters; otherwise BadQueryError.
The function body ends in a bare `return`, so it returns None on success. -/
def async_delete_many (C : CrudCtx) (objs : List ModelInst) (t : Table) :
    Outcome (Option Bool) :=
  if objs.isEmpty then
    { res := .error (.indexError
        ("param \"objs\" is empty, pass at least one object")),
      tbl := t, sent := [] }
  else
    let placeholders := String.intercalate (", ") (objs.map (fun _ => "?"))
    if objs.all (fun o => rowidTruthy o.rowid) then
      let vals := objs.map (fun o =>
        match o.rowid with
        | some n => Val.int n
        | none => Val.null)
      let q := "DELETE FROM " ++ C.tablename ++ " WHERE rowid IN ("
        ++ placeholders ++ ")"
      match execDeleteIn C "rowid" vals t with
      | .error e => { res := .error e, tbl := t, sent := [(q, vals)] }
      | .ok t2 => { res := .ok none, tbl := t2, sent := [(q, vals)] }
    else
      match C.pk with
      | some pk =>
        if pk == "" then
          { res := .error (.badQueryError
              ("Objects requiere either a primary key or the rowid set for mass deletion")),
            tbl := t, sent := [] }
        else
          let vals := objs.map (fun o => (lookupCell pk o.cells).getD .null)
          let q := "DELETE FROM " ++ C.tablename ++ " WHERE id IN ("
            ++ placeholders ++ ")"
          match execDeleteIn C "id" vals t with
          | .error e => { res := .error e, tbl := t, sent := [(q, vals)] }
          | .ok t2 => { res := .ok none, tbl := t2, sent := [(q, vals)] }
      | none =>
        { res := .error (.badQueryError
            ("Objects requiere either a primary key or the rowid set for mass deletion")),
          tbl := t, sent := [] }

/-- `verify_kws` (src/ardilla/crud.py:15-26): the decorator wrapped around the
blocking keyword-taking Crud methods; raises KeyError on the first supplied
keyword that is not in `Model.__fields__`, before the wrapped method runs. -/
def verify_kws (C : CrudCtx) (kws : Kws) : Except DBError Unit :=
  match kws.find? (fun kv => !(C.fields.contains kv.1)) with
  | some kv =>
    .error (.keyError ("\"" ++ kv.1 ++ "\" is not a field of the \""
      ++ C.modelName ++ "\" and cannot be used in queries"))
  | none => .ok ()

/-- Modelled from the spec: `queries.for_get_or_none` (src/ardilla/queries.py
is not under src/). Spec §4.2 pointLookup: `WHERE f1 = ? AND f2 = ? ...` with
`LIMIT 1`, over the §6 dialect `SELECT rowid, *`; values go to the ordered
parameter list. -/
def for_get_or_none (tablename : String) (kws : Kws) : String × List Val :=
  let to_match :=
    String.intercalate (" AND ") (kws.map (fun kv => kv.1 ++ " = ?"))
  ("SELECT rowid, * FROM " ++ tablename ++ " WHERE (" ++ to_match
    ++ ") LIMIT 1;", kws.map (fun kv => kv.2))

/-- `Crud.get_or_none` (crud.py:69-95): `verify_kws` first, then the built
statement is executed and `fetchone` mapped through `_row2obj`. -/
def sync_get_or_none (C : CrudCtx) (kws : Kws) (t : Table) :
    Outcome (Option ModelInst) :=
  match verify_kws C kws with
  | .error e => { res := .error e, tbl := t, sent := [] }
  | .ok _ =>
    match for_get_or_none C.tablename kws with
    | (q, vals) =>
      match execSelect C kws t with
      | .error e => { res := .error e, tbl := t, sent := [(q, vals)] }
      | .ok rows =>
        { res := .ok (rows.head?.map readObj), tbl := t, sent := [(q, vals)] }

/-- Modelled from the spec: `queries.for_do_insert` (queries.py not under
src/). Spec §4.2 insert(table, fields, ignoreOnConflict, returning) over the
§6 dialect `INSERT [OR IGNORE] INTO t (cols) VALUES (?,...) [RETURNING *]`. -/
def for_do_insert (tablename : String) (ignore returning : Bool) (kws : Kws) :
    String × List Val :=
  let keys := kws.map (fun kv => kv.1)
  let placeholders := String.intercalate (", ") (List.replicate keys.length "?")
  ((if ignore then "INSERT OR IGNORE " else "INSERT ")
    ++ "INTO " ++ tablename ++ " (" ++ String.intercalate (", ") keys
    ++ ") VALUES (" ++ placeholders ++ ")"
    ++ (if returning then " RETURNING *;" else ";"),
    kws.map (fun kv => kv.2))

/-- `Crud._do_insert` (crud.py:33-67): executes the built insert, translating
the store's IntegrityError into QueryExecutionError; other store errors
propagate; returns the instance (with `cur.lastrowid`) when a row returned. -/
def sync_do_insert (C : CrudCtx) (ignore returning : Bool) (kws : Kws)
    (t : Table) : Outcome (Option ModelInst) :=
  match for_do_insert C.tablename ignore returning kws with
  | (q, vals) =>
    match execInsert C ignore kws t with
    | .error (.integrityError m) =>
      { res := .error (.queryExecutionError m), tbl := t, sent := [(q, vals)] }
    | .error e => { res := .error e, tbl := t, sent := [(q, vals)] }
    | .ok (t2, some r) =>
      if returning then
        { res := .ok (some (row2obj r.cells (some (r.rowid : Int)))),
          tbl := t2, sent := [(q, vals)] }
      else { res := .ok none, tbl := t2, sent := [(q, vals)] }
    | .ok (t2, none) => { res := .ok none, tbl := t2, sent := [(q, vals)] }

/-- `Crud.insert` (crud.py:97-111): `verify_kws`, then `_do_insert(False, True)`. -/
def sync_insert (C : CrudCtx) (kws : Kws) (t : Table) :
    Outcome (Option ModelInst) :=
  match verify_kws C kws with
  | .error e => { res := .error e, tbl := t, sent := [] }
  | .ok _ => sync_do_insert C false true kws t

/-- `Crud.insert_or_ignore` (crud.py:113-124): `verify_kws`, then
`_do_insert(True, True)`. -/
def sync_insert_or_ignore (C : CrudCtx) (kws : Kws) (t : Table) :
    Outcome (Option ModelInst) :=
  match verify_kws C kws with
  | .error e => { res := .error e, tbl := t, sent := [] }
  | .ok _ => sync_do_insert C true true kws t

/-- `Crud.get_or_create` (crud.py:127-142): itself decorated with
`verify_kws`; `get_or_none`, then on a miss `insert_or_ignore` with
`created = True` (instances are truthy, so `if not result` means None). -/
def sync_get_or_create (C : CrudCtx) (kws : Kws) (t : Table) :
    Outcome (Option ModelInst × Bool) :=
  match verify_kws C kws with
  | .error e => { res := .error e, tbl := t, sent := [] }
  | .ok _ =>
    let o1 := sync_get_or_none C kws t
    match o1.res with
    | .error e => { res := .error e, tbl := o1.tbl, sent := o1.sent }
    | .ok (some m) =>
      { res := .ok (some m, false), tbl := o1.tbl, sent := o1.sent }
    | .ok none =>
      let o2 := sync_insert_or_ignore C kws o1.tbl
      match o2.res with
      | .error e =>
        { res := .error e, tbl := o2.tbl, sent := o1.sent ++ o2.sent }
      | .ok r =>
        { res := .ok (r, true), tbl := o2.tbl, sent := o1.sent ++ o2.sent }

/-- SQLite value ordering used by ORDER BY: NULL before integers before text. -/
def valLt : Val → Val → Bool
  | .null, .null => false
  | .null, _ => true
  | .int _, .null => false
  | .int a, .int b => a < b
  | .int _, .text _ => true
  | .text _, .null => false
  | .text _, .int _ => false
  | .text a, .text b => a < b

/-- Lexicographic row comparison for an `ORDER BY c1 d1, c2 d2, ...` list;
direction comparison is case-insensitive (spec §4.2). -/
def rowLe (ob : List (String × String)) (r1 r2 : StoredRow) : Bool :=
  match ob with
  | [] => true
  | (c, d) :: rest =>
    let v1 := (cellValue r1 c).getD .null
    let v2 := (cellValue r2 c).getD .null
    if v1 == v2 then rowLe rest r1 r2
    else if d.toUpper == "DESC" then valLt v2 v1 else valLt v1 v2

/-- Stable insertion into a sorted row list. -/
def insertSortedRow (le : StoredRow → StoredRow → Bool) (x : StoredRow) :
    List StoredRow → List StoredRow
  | [] => [x]
  | y :: ys => if le y x then y :: insertSortedRow le x ys else x :: y :: ys

/-- Stable insertion sort of rows. -/
def sortRows (le : StoredRow → StoredRow → Bool) :
    List StoredRow → List StoredRow
  | [] => []
  | x :: xs => insertSortedRow le x (sortRows le xs)

/-- Modelled from the spec: `queries.for_get_many` (queries.py not under
src/). Spec §4.2 filteredLookup(table, predicateFields, orderBy, limit):
identifiers (predicate keys were already validated by the caller; ordering
columns are checked against the model here, directions case-insensitively
against ASC/DESC) are interpolated, and the limit travels as a bound
parameter per the §4.2 design rule that values are never interpolated. -/
def for_get_many (C : CrudCtx) (order_by : List (String × String))
    (limit : Option Int) (kws : Kws) : Except DBError (String × List Val) :=
  match order_by.find? (fun cd => !(C.fields.contains cd.1)) with
  | some cd =>
    .error (.badQueryError ("cannot order by unknown column " ++ cd.1))
  | none =>
    match order_by.find? (fun cd =>
        !(cd.2.toUpper == "ASC" || cd.2.toUpper == "DESC")) with
    | some cd =>
      .error (.badQueryError ("invalid ordering direction " ++ cd.2))
    | none =>
      let whereClause :=
        if kws.isEmpty then ""
        else " WHERE (" ++ String.intercalate (" AND ")
          (kws.map (fun kv => kv.1 ++ " = ?")) ++ ")"
      let orderClause :=
        if order_by.isEmpty then ""
        else " ORDER BY " ++ String.intercalate (", ")
          (order_by.map (fun cd => cd.1 ++ " " ++ cd.2.toUpper))
      let limitClause := if limit.isSome then " LIMIT ?" else ""
      .ok ("SELECT rowid, * FROM " ++ C.tablename ++ whereClause
        ++ orderClause ++ limitClause ++ ";",
        kws.map (fun kv => kv.2) ++
          (match limit with
          | some n => [Val.int n]
          | none => []))

/-- Rows remaining after an optional `LIMIT n`. -/
def applyLimit (limit : Option Int) (rows : List StoredRow) : List StoredRow :=
  match limit with
  | some n => rows.take n.toNat
  | none => rows

/-- `Crud.get_many` (crud.py:151-179): inline keyword validation identical to
`verify_kws`, then the filtered lookup with optional ordering and limit is
built and executed, and `fetchall` is mapped through `_row2obj`. -/
def sync_get_many (C : CrudCtx) (order_by : List (String × String))
    (limit : Option Int) (kws : Kws) (t : Table) : Outcome (List ModelInst) :=
  match kws.find? (fun kv => !(C.fields.contains kv.1)) with
  | some kv =>
    { res := .error (.keyError ("\"" ++ kv.1 ++ "\" is not a field of the \""
        ++ C.modelName ++ "\" and cannot be used in queries")),
      tbl := t, sent := [] }
  | none =>
    match for_get_many C order_by limit kws with
    | .error e => { res := .error e, tbl := t, sent := [] }
    | .ok (q, vals) =>
      match execSelect C kws t with
      | .error e => { res := .error e, tbl := t, sent := [(q, vals)] }
      | .ok rows =>
        { res := .ok ((applyLimit limit
            (sortRows (rowLe order_by) rows)).map readObj),
          tbl := t, sent := [(q, vals)] }

/-- Modelled from the spec: the identity resolution inside
`queries.for_delete_one` (queries.py not under src/). Spec §4.3, single
instance: the declared primary key if any, else the captured rowid if any,
else every declared field whose name contains "id"; BadQueryError when that
fallback set is empty. -/
def identityPreds (C : CrudCtx) (obj : ModelInst) : Except DBError Kws :=
  match C.pk with
  | some p => .ok [(p, (lookupCell p obj.cells).getD .null)]
  | none =>
    match obj.rowid with
    | some r => .ok [("rowid", Val.int r)]
    | none =>
      match (idColsOf obj).map
          (fun k => (k, (lookupCell k obj.cells).getD .null)) with
      | [] =>
        .error (.badQueryError
          ("delete_one requires a primary key, a rowid or id-like fields"))
      | preds => .ok preds

/-- Modelled from the spec: statement text of `queries.for_delete_one` over
the resolved identity predicates, §6 dialect `DELETE FROM t WHERE ...`. -/
def deleteWhereText (tablename : String) (preds : Kws) : String :=
  "DELETE FROM " ++ tablename ++ " WHERE ("
    ++ String.intercalate (" AND ") (preds.map (fun kv => kv.1 ++ " = ?"))
    ++ ");"

/-- `Crud.delete_one` (crud.py:213-234): builds the statement via
`queries.for_delete_one` (modelled above) and executes it; returns True. -/
def sync_delete_one (C : CrudCtx) (obj : ModelInst) (t : Table) :
    Outcome Bool :=
  match identityPreds C obj with
  | .error e => { res := .error e, tbl := t, sent := [] }
  | .ok preds =>
    let q := deleteWhereText C.tablename preds
    let vals := preds.map (fun kv => kv.2)
    match execDeleteWhere C preds t with
    | .error e => { res := .error e, tbl := t, sent := [(q, vals)] }
    | .ok t2 => { res := .ok true, tbl := t2, sent := [(q, vals)] }

/-- Modelled from the spec: the bulk identity resolution inside
`queries.for_delete_many` (queries.py not under src/). Spec §4.3, bulk: an
empty operand set is a fail-fast precondition violation (§7 files it under
BadQueryError); rowid membership when every instance carries one; else
primary-key membership; else BadQueryError. -/
def bulkIdentity (C : CrudCtx) (objs : List ModelInst) :
    Except DBError (String × List Val) :=
  if objs.isEmpty then
    .error (.badQueryError ("empty operand set for bulk delete"))
  else if objs.all (fun o => o.rowid.isSome) then
    .ok ("rowid", objs.map (fun o =>
      match o.rowid with
      | some n => Val.int n
      | none => Val.null))
  else
    match C.pk with
    | some p => .ok (p, objs.map (fun o => (lookupCell p o.cells).getD .null))
    | none =>
      .error (.badQueryError
        ("objects require either a primary key or a captured identity for mass deletion"))

/-- `Crud.delete_many` (crud.py:236-252): builds the bulk delete via
`queries.for_delete_many` (modelled above), executes it and returns True
(embedded as `some true`; the Python value is the literal True). -/
def sync_delete_many (C : CrudCtx) (objs : List ModelInst) (t : Table) :
    Outcome (Option Bool) :=
  match bulkIdentity C objs with
  | .error e => { res := .error e, tbl := t, sent := [] }
  | .ok (col, vals) =>
    let q := "DELETE FROM " ++ C.tablename ++ " WHERE " ++ col ++ " IN ("
      ++ String.intercalate (", ") (vals.map (fun _ => "?")) ++ ")"
    match execDeleteIn C col vals t with
    | .error e => { res := .error e, tbl := t, sent := [(q, vals)] }
    | .ok t2 => { res := .ok (some true), tbl := t2, sent := [(q, vals)] }

/-- Python annotation types a model field can carry. -/
inductive PyType where
  | int
  | float
  | str
  | bool
  | bytes
  | other (name : String)
deriving DecidableEq, Repr

/-- One pydantic field declaration as `Model.__init_subclass__` reads it:
name, annotated type, and the `primary` / `primary_key` extras. -/
structure FieldDecl where
  name : String
  ftype : PyType
  primary : Bool
  primary_key : Bool
deriving DecidableEq, Repr

/-- Modelled from the spec: membership in `schemas.FIELD_MAPPING`
(src/ardilla/schemas.py is not under src/). Spec §3: the supported semantic
types are integer, real, text, boolean and blob. -/
def supportedType : PyType → Bool
  | .other _ => false
  | _ => true

/-- The field loop of `Model.__init_subclass__` (src/ardilla/models.py:40-52)
with the current `cls.__pk__` as accumulator: an unsupported annotation
raises ModelIntegrityError; a field marked primary (or primary_key) when a
primary key was already recorded raises ModelIntegrityError, else records
the field name as the primary key. -/
def initSubclassLoop (modelName : String) (pk : Option String) :
    List FieldDecl → Except DBError (Option String)
  | [] => .ok pk
  | f :: rest =>
    if !(supportedType f.ftype) then
      .error (.modelIntegrityError ("Field \"" ++ f.name
        ++ "\" of model \"" ++ modelName ++ "\" is of unsupported type"))
    else if f.primary || f.primary_key then
      match pk with
      | some _ =>
        .error (.modelIntegrityError ("More than one fields defined as primary"))
      | none => initSubclassLoop modelName (some f.name) rest
    else initSubclassLoop modelName pk rest

/-- `Model.__init_subclass__` (models.py:40-64): run the field loop starting
with no recorded primary key, then derive the default table name (the
lower-cased model name, `schemas.get_tablename` modelled from spec §3; the
schema/`get_pk` derivations are pure and cannot fail for supported types).
Returns the derived primary-key column and table name. -/
def modelInitSubclass (modelName : String) (fields : List FieldDecl) :
    Except DBError (Option String × String) :=
  match initSubclassLoop modelName none fields with
  | .error e => .error e
  | .ok pk => .ok (pk, modelName.toLower)

/-- Tests whether a Crud outcome failed with the naming error (KeyError)
raised by keyword validation. -/
def isNamingError {α : Type} : Except DBError α → Bool
  | .error (.keyError _) => true
  | _ => false

/-- Example model: a User with primary key `id` and fields `id`, `name`. -/
def exUserCtx : CrudCtx :=
  { modelName := "User", tablename := "user",
    fields := ["id", "name"], pk := some "id" }

/-- A user table holding one row `(id=1, name='a')` with rowid 1. -/
def exUserTable : Table :=
  { rows := [{ rowid := 1, cells := [("id", .int 1), ("name", .text "a")] }],
    nextRowid := 2 }

/-- An empty user table. -/
def exEmptyTable : Table := { rows := [], nextRowid := 1 }

/-- Example model: a Guild whose declared primary key column is `uid` (a name
other than `id`), with fields `uid`, `name`. -/
def exGuildCtx : CrudCtx :=
  { modelName := "Guild", tablename := "guild",
    fields := ["uid", "name"], pk := some "uid" }

/-- A guild table holding rows `(uid=1, name='a')` and `(uid=2, name='b')`. -/
def exGuildTable : Table :=
  { rows := [{ rowid := 1, cells := [("uid", .int 1), ("name", .text "a")] },
             { rowid := 2, cells := [("uid", .int 2), ("name", .text "b")] }],
    nextRowid := 3 }

/-- Guild instance `(uid=1, name='a')` built in memory (no captured rowid). -/
def exGuildObj1 : ModelInst :=
  { cells := [("uid", .int 1), ("name", .text "a")], rowid := none }

/-- Guild instance `(uid=2, name='b')` built in memory (no captured rowid). -/
def exGuildObj2 : ModelInst :=
  { cells := [("uid", .int 2), ("name", .text "b")], rowid := none }

/-- Guild instance `(uid=1, name='a')` with captured rowid 1. -/
def exGuildObj1r : ModelInst :=
  { cells := [("uid", .int 1), ("name", .text "a")], rowid := some 1 }

/-- Guild instance `(uid=2, name='b')` with captured rowid 2. -/
def exGuildObj2r : ModelInst :=
  { cells := [("uid", .int 2), ("name", .text "b")], rowid := some 2 }

/-- Example model: a Score with primary key `num` and fields `num`, `name`;
no field name contains the substring "id". -/
def exScoreCtx : CrudCtx :=
  { modelName := "Score", tablename := "score",
    fields := ["num", "name"], pk := some "num" }

/-- Score instance `(num=1, name='a')` with captured rowid 5. -/
def exScoreObj : ModelInst :=
  { cells := [("num", .int 1), ("name", .text "a")], rowid := some 5 }

/-- A score table holding the row `(num=1, name='a')` with rowid 5. -/
def exScoreTable : Table :=
  { rows := [{ rowid := 5, cells := [("num", .int 1), ("name", .text "a")] }],
    nextRowid := 6 }

/-- C1: the claim is false for the suspending variant: `get_or_none` with the
unknown keyword `bogus` does not fail with a naming error; the statement text
is built with the unknown key and reaches the store, which rejects it with
its own OperationalError. -/
theorem C1_counterexample :
    (async_get_or_none exUserCtx [("bogus", .int 1)] exUserTable).sent =
      [("SELECT rowid, * FROM user WHERE (bogus = ?) LIMIT 1;",
        [Val.int 1])] ∧
    (async_get_or_none exUserCtx [("bogus", .int 1)] exUserTable).res =
      .error (.operationalError ("no such column: bogus")) ∧
    isNamingError
      (async_get_or_none exUserCtx [("bogus", .int 1)] exUserTable).res =
      false :=
  ⟨rfl, rfl, rfl⟩

/-- C2: the claim is false for the suspending variant: the statement text
built by `_get_or_none_any` for the unknown keyword `bogus` interpolates that
identifier even though it is not in the model's declared field set. -/
theorem C2_counterexample :
    asyncGetOrNoneAnyStmt exUserCtx false [("bogus", .int 1)] =
      .ok ("SELECT rowid, * FROM user WHERE (bogus = ?) LIMIT 1;",
        [Val.int 1]) ∧
    pyIn "bogus" "SELECT rowid, * FROM user WHERE (bogus = ?) LIMIT 1;" =
      true ∧
    exUserCtx.fields.contains "bogus" = false :=
  ⟨rfl, rfl, rfl⟩

/-- C3: the suspending `delete_many` on primary-key resolution interpolates
the literal column name `id` instead of the declared primary key `uid`: for
two identity-less Guild instances the statement `DELETE FROM guild WHERE id
IN (?, ?)` is sent binding the uid values, the store rejects it (`no such
column: id`), and no row is deleted — whereas the claim requires exactly the
rows with uid 1 and 2 to be deleted; moreover on the successful rowid path
the call returns None, not True, contradicting its own `Literal[True]`
annotation. -/
theorem C3_code_bug :
    (async_delete_many exGuildCtx [exGuildObj1, exGuildObj2] exGuildTable).sent
      = [("DELETE FROM guild WHERE id IN (?, ?)", [Val.int 1, Val.int 2])] ∧
    (async_delete_many exGuildCtx [exGuildObj1, exGuildObj2] exGuildTable).res
      = .error (.operationalError ("no such column: id")) ∧
    (async_delete_many exGuildCtx [exGuildObj1, exGuildObj2] exGuildTable).tbl
      = exGuildTable ∧
    (async_delete_many exGuildCtx [exGuildObj1r, exGuildObj2r]
        exGuildTable).res = .ok none :=
  ⟨rfl, rfl, rfl, rfl⟩

/-- C4: the claim is false for the suspending variant: although the Score
model declares the primary key `num`, `delete_one` ignores it (and the
captured rowid), builds the heuristic statement over the empty set of
"id"-named fields — `DELETE FROM score WHERE ();`, whose text never mentions
`num` — and the store rejects it as a syntax error instead of the row being
deleted by primary key. -/
theorem C4_counterexample :
    (async_delete_one exScoreCtx exScoreObj exScoreTable).sent =
      [("DELETE FROM score WHERE ();", [])] ∧
    pyIn "num" "DELETE FROM score WHERE ();" = false ∧
    (async_delete_one exScoreCtx exScoreObj exScoreTable).res =
      .error (.operationalError ("near \")\": syntax error")) ∧
    (async_delete_one exScoreCtx exScoreObj exScoreTable).tbl =
      exScoreTable :=
  ⟨rfl, rfl, rfl, rfl⟩

/-- C6: the claim is false: on the same input (two Guild instances carrying
rowids) the blocking `delete_many` returns True while the suspending variant
returns None, so the two variants do not produce identical results. -/
theorem C6_counterexample :
    (sync_delete_many exGuildCtx [exGuildObj1r, exGuildObj2r]
      exGuildTable).res = .ok (some true) ∧
    (async_delete_many exGuildCtx [exGuildObj1r, exGuildObj2r]
      exGuildTable).res = .ok none ∧
    (sync_delete_many exGuildCtx [exGuildObj1r, exGuildObj2r]
        exGuildTable).res ≠
      (async_delete_many exGuildCtx [exGuildObj1r, exGuildObj2r]
        exGuildTable).res :=
  ⟨rfl, rfl, by decide⟩

/-- C10: `get_or_create` can return `(None, True)`: with the row
`(id=1, name='a')` stored, the call `get_or_create(id=1, name='b')` misses on
the full predicate, the subsequent `insert_or_ignore` is suppressed by the
primary-key conflict on `id=1`, and both variants return None together with
`created = True`, leaving the stored row unchanged. -/
theorem C10_get_or_create_none_true :
    (async_get_or_create exUserCtx [("id", .int 1), ("name", .text "b")]
      exUserTable).res = .ok (none, true) ∧
    (async_get_or_create exUserCtx [("id", .int 1), ("name", .text "b")]
      exUserTable).tbl = exUserTable ∧
    (sync_get_or_create exUserCtx [("id", .int 1), ("name", .text "b")]
      exUserTable).res = .ok (none, true) ∧
    (sync_get_or_create exUserCtx [("id", .int 1), ("name", .text "b")]
      exUserTable).tbl = exUserTable :=
  ⟨rfl, rfl, rfl, rfl⟩

theorem exceptIsOk_ok {α : Type} (x : α) :
    (Except.ok x : Except DBError α).isOk = true := rfl

theorem exceptIsOk_error {α : Type} (e : DBError) :
    (Except.error e : Except DBError α).isOk = false := rfl

theorem initSubclassLoop_isOk (modelName : String) (fs : List FieldDecl) :
    ∀ pk : Option String,
      (initSubclassLoop modelName pk fs).isOk = true ↔
        ((∀ f ∈ fs, supportedType f.ftype = true) ∧
          fs.countP (fun f => f.primary || f.primary_key) +
            (if pk.isSome then 1 else 0) ≤ 1) := by
  induction fs with
  | nil =>
    intro pk
    simp [initSubclassLoop, exceptIsOk_ok]
    cases pk <;> simp
  | cons f rest ih =>
    intro pk
    by_cases hs : supportedType f.ftype = true
    · by_cases hp : (f.primary || f.primary_key) = true
      · cases pk with
        | some p =>
          simp [initSubclassLoop, hs, hp, exceptIsOk_error, List.countP_cons]
        | none =>
          simp [initSubclassLoop, hs, hp, ih (some f.name), List.countP_cons]
      · simp [initSubclassLoop, hs, hp, ih pk, List.countP_cons]
    · have hs2 : supportedType f.ftype = false := by
        cases h : supportedType f.ftype
        · rfl
        · exact absurd h hs
      simp [initSubclassLoop, hs2, exceptIsOk_error]

theorem initSubclassLoop_error (modelName : String) (fs : List FieldDecl) :
    ∀ (pk : Option String) (e : DBError),
      initSubclassLoop modelName pk fs = .error e →
        ∃ m, e = .modelIntegrityError m := by
  induction fs with
  | nil =>
    intro pk e h
    simp [initSubclassLoop] at h
  | cons f rest ih =>
    intro pk e h
    by_cases hs : (!(supportedType f.ftype)) = true
    · simp [initSubclassLoop, hs] at h
      exact ⟨_, h.symm⟩
    · by_cases hp : (f.primary || f.primary_key) = true
      · cases pk with
        | some p =>
          simp [initSubclassLoop, hs, hp] at h
          exact ⟨_, h.symm⟩
        | none =>
          simp only [initSubclassLoop, hs, hp, if_true, if_false,
            Bool.not_eq_true] at h
          exact ih (some f.name) e (by simpa [hs] using h)
      · simp only [initSubclassLoop, hs, hp, if_false,
          Bool.not_eq_true] at h
        exact ih pk e (by simpa [hs, hp] using h)

/-- C9: constructing a model type succeeds exactly when every declared field
type is in the supported mapping and at most one field is marked primary
(via either the `primary` or `primary_key` extra); every failure is the
schema-definition error ModelIntegrityError. -/
theorem C9_model_construction (modelName : String) (fields : List FieldDecl) :
    ((modelInitSubclass modelName fields).isOk = true ↔
      ((∀ f ∈ fields, supportedType f.ftype = true) ∧
        fields.countP (fun f => f.primary || f.primary_key) ≤ 1)) ∧
    ((modelInitSubclass modelName fields).isOk = false →
      ∃ m, modelInitSubclass modelName fields =
        .error (.modelIntegrityError m)) := by
  constructor
  · have h := initSubclassLoop_isOk modelName fields none
    simp at h
    rw [← h]
    cases hr : initSubclassLoop modelName none fields with
    | error e => simp [modelInitSubclass, hr, exceptIsOk_error]
    | ok r => simp [modelInitSubclass, hr, exceptIsOk_ok]
  · intro hbad
    cases hr : initSubclassLoop modelName none fields with
    | ok r =>
      exfalso
      have : (modelInitSubclass modelName fields).isOk = true := by
        simp [modelInitSubclass, hr, exceptIsOk_ok]
      rw [this] at hbad
      exact Bool.noConfusion hbad
    | error e =>
      rcases initSubclassLoop_error modelName fields none e hr with ⟨m, hm⟩
      refine ⟨m, ?_⟩
      simp [modelInitSubclass, hr, hm]

/-- Witness for C9: a model with a supported int primary key and a str field
constructs; a model with two primary-marked fields fails with
ModelIntegrityError. -/
theorem C9_witness :
    (modelInitSubclass "User"
      [{ name := "id", ftype := .int, primary := true, primary_key := false },
       { name := "name", ftype := .str, primary := false,
         primary_key := false }]).isOk = true ∧
    (∃ m, modelInitSubclass "Bad"
      [{ name := "id", ftype := .int, primary := true, primary_key := false },
       { name := "uid", ftype := .int, primary := false,
         primary_key := true }] = .error (.modelIntegrityError m)) :=
  ⟨(C9_model_construction "User" _).1.mpr (by decide),
   (C9_model_construction "Bad" _).2 rfl⟩

theorem async_do_insert_res (C : CrudCtx) (ignore : Bool) (kws : Kws)
    (t : Table) (hne : kws ≠ []) :
    (async_do_insert C ignore true kws t).res =
      (match execInsert C ignore kws t with
      | .error (.integrityError m) => .error (.queryExecutionError m)
      | .error e => .error e
      | .ok (_, some r) => .ok (some (row2obj r.cells (some (r.rowid : Int))))
      | .ok (_, none) => .ok none) ∧
    (async_do_insert C ignore true kws t).tbl =
      (match execInsert C ignore kws t with
      | .error _ => t
      | .ok (t2, _) => t2) := by
  cases kws with
  | nil => exact absurd rfl hne
  | cons kv rest =>
    simp only [async_do_insert, asyncInsertStmt, List.isEmpty_cons,
      Bool.false_eq_true, if_false]
    cases hE : execInsert C ignore (kv :: rest) t with
    | error e => cases e <;> simp
    | ok p =>
      obtain ⟨t2, r⟩ := p
      cases r <;> simp

theorem execInsert_integrity_iff (C : CrudCtx) (kws : Kws) (t : Table) :
    (∃ m, execInsert C false kws t = .error (.integrityError m)) ↔
      (firstBadKey C kws = none ∧
        insertConflict C t (mkCells C.fields kws) = true) := by
  unfold execInsert
  cases hB : firstBadKey C kws with
  | some k => simp [hB]
  | none =>
    by_cases hc : insertConflict C t (mkCells C.fields kws) = true
    · simp [hc]
    · simp [hc]

theorem execInsert_error_shape (C : CrudCtx) (ig : Bool) (kws : Kws)
    (t : Table) (e : DBError) (h : execInsert C ig kws t = .error e) :
    (∃ m, e = .operationalError m) ∨
      ((∃ m, e = .integrityError m) ∧ ig = false) := by
  unfold execInsert at h
  cases hB : firstBadKey C kws with
  | some k =>
    rw [hB] at h
    injection h with h2
    exact .inl ⟨_, h2.symm⟩
  | none =>
    rw [hB] at h
    by_cases hc : insertConflict C t (mkCells C.fields kws) = true
    · rw [if_pos hc] at h
      cases ig with
      | true => exact Except.noConfusion h
      | false =>
        injection h with h2
        exact .inr ⟨⟨_, h2.symm⟩, rfl⟩
    · rw [if_neg hc] at h
      exact Except.noConfusion h

theorem verify_kws_error_shape (C : CrudCtx) (kws : Kws) (e : DBError)
    (h : verify_kws C kws = .error e) : ∃ m, e = .keyError m := by
  unfold verify_kws at h
  cases hF : kws.find? (fun kv => !(C.fields.contains kv.1)) with
  | some kv =>
    rw [hF] at h
    injection h with h2
    exact ⟨_, h2.symm⟩
  | none =>
    rw [hF] at h
    exact Except.noConfusion h

/-- C5: for any table state and non-empty field keywords, the suspending
`insert` raises QueryExecutionError exactly when the store rejects the write
with a uniqueness violation (which happens exactly on a validated insert that
conflicts on the primary key); every non-integrity store error propagates
unchanged; `insert_or_ignore` never raises QueryExecutionError, and a
suppressed conflict makes it return None leaving the stored rows unchanged;
and the blocking `insert` raises QueryExecutionError under exactly the same
condition once its keywords pass validation. -/
theorem C5_insert_error_semantics (C : CrudCtx) (kws : Kws) (t : Table)
    (hne : kws ≠ []) :
    ((∃ m, (async_insert C kws t).res = .error (.queryExecutionError m)) ↔
      (∃ m, execInsert C false kws t = .error (.integrityError m))) ∧
    ((∃ m, execInsert C false kws t = .error (.integrityError m)) ↔
      (firstBadKey C kws = none ∧
        insertConflict C t (mkCells C.fields kws) = true)) ∧
    (∀ e, (∀ m, e ≠ .integrityError m) →
      execInsert C false kws t = .error e →
      (async_insert C kws t).res = .error e) ∧
    (∀ m, (async_insert_or_ignore C kws t).res ≠
      .error (.queryExecutionError m)) ∧
    (firstBadKey C kws = none →
      insertConflict C t (mkCells C.fields kws) = true →
      (async_insert_or_ignore C kws t).res = .ok none ∧
      (async_insert_or_ignore C kws t).tbl = t) ∧
    ((∃ m, (sync_insert C kws t).res = .error (.queryExecutionError m)) ↔
      (verify_kws C kws = .ok () ∧
        ∃ m, execInsert C false kws t = .error (.integrityError m))) := by
  have hres := (async_do_insert_res C false kws t hne).1
  have hresI := (async_do_insert_res C true kws t hne).1
  have htblI := (async_do_insert_res C true kws t hne).2
  refine ⟨?_, execInsert_integrity_iff C kws t, ?_, ?_, ?_, ?_⟩
  · rw [show async_insert C kws t = async_do_insert C false true kws t from
      rfl, hres]
    cases hE : execInsert C false kws t with
    | error e =>
      rcases execInsert_error_shape C false kws t e hE with ⟨m, rfl⟩ |
        ⟨⟨m, rfl⟩, -⟩ <;> simp
    | ok p =>
      obtain ⟨t2, r⟩ := p
      cases r <;> simp
  · intro e hni hE
    rw [show async_insert C kws t = async_do_insert C false true kws t from
      rfl, hres, hE]
    cases e <;> first
      | rfl
      | exact absurd rfl (hni _)
  · intro m
    rw [show async_insert_or_ignore C kws t =
      async_do_insert C true true kws t from rfl, hresI]
    cases hE : execInsert C true kws t with
    | error e =>
      rcases execInsert_error_shape C true kws t e hE with ⟨m2, rfl⟩ |
        ⟨-, hig⟩
      · simp
      · exact Bool.noConfusion hig
    | ok p =>
      obtain ⟨t2, r⟩ := p
      cases r <;> simp
  · intro hBad hConf
    have hE : execInsert C true kws t = .ok (t, none) := by
      unfold execInsert
      rw [hBad]
      simp [hConf]
    constructor
    · rw [show async_insert_or_ignore C kws t =
        async_do_insert C true true kws t from rfl, hresI, hE]
    · rw [show async_insert_or_ignore C kws t =
        async_do_insert C true true kws t from rfl, htblI, hE]
  · unfold sync_insert
    cases hV : verify_kws C kws with
    | error e =>
      rcases verify_kws_error_shape C kws e hV with ⟨m, rfl⟩
      simp [hV]
    | ok u =>
      have hu : u = () := rfl
      subst hu
      simp only [hV, true_and]
      unfold sync_do_insert for_do_insert
      cases hE : execInsert C false kws t with
      | error e =>
        rcases execInsert_error_shape C false kws t e hE with ⟨m, rfl⟩ |
          ⟨⟨m, rfl⟩, -⟩ <;> simp
      | ok p =>
        obtain ⟨t2, r⟩ := p
        cases r <;> simp

/-- Witness for C5 at the spec §8 conflict example: with `(id=1, name='a')`
stored, `insert(id=1, name='b')` raises QueryExecutionError while
`insert_or_ignore(id=1, name='b')` returns None and leaves the table
unchanged. -/
theorem C5_witness :
    (async_insert_or_ignore exUserCtx [("id", .int 1), ("name", .text "b")]
      exUserTable).res = .ok none ∧
    (async_insert_or_ignore exUserCtx [("id", .int 1), ("name", .text "b")]
      exUserTable).tbl = exUserTable ∧
    (∃ m, (async_insert exUserCtx [("id", .int 1), ("name", .text "b")]
      exUserTable).res = .error (.queryExecutionError m)) := by
  obtain ⟨h1, h2, h3, h4, h5, h6⟩ :=
    C5_insert_error_semantics exUserCtx
      [("id", .int 1), ("name", .text "b")] exUserTable
      (List.cons_ne_nil _ _)
  have h5x := h5 (by rfl) (by rfl)
  exact ⟨h5x.1, h5x.2, h1.mpr ⟨"UNIQUE constraint failed: user.id", rfl⟩⟩

theorem list_zip_map_fst_snd {α β : Type} (l : List (α × β)) :
    (l.map Prod.fst).zip (l.map Prod.snd) = l := by
  induction l with
  | nil => rfl
  | cons x xs ih => simp [ih]

theorem find?_self_contains_none (l : List String) (sub : List String)
    (h : ∀ x ∈ sub, l.contains x = true) :
    sub.find? (fun c => !(l.contains c)) = none := by
  induction sub with
  | nil => rfl
  | cons x xs ih =>
    rw [List.find?_cons]
    rw [h x (by simp)]
    simp only [Bool.not_true]
    exact ih (fun y hy => h y (by simp [hy]))

theorem execReplaceCols_fields (C : CrudCtx) (vals : List Val) (t : Table)
    (hlen : vals.length = C.fields.length) :
    execReplaceCols C C.fields vals t =
      .ok (replacedTable C (mkCells C.fields (C.fields.zip vals)) t) := by
  unfold execReplaceCols
  rw [find?_self_contains_none C.fields C.fields
    (fun x hx => List.elem_eq_true_of_mem hx)]
  simp [hlen]

theorem execManyReplace_cons_ok (C : CrudCtx) (vals : List Val)
    (rest : List (List Val)) (t t2 : Table)
    (h : execReplaceCols C C.fields vals t = .ok t2) :
    execManyReplace C (vals :: rest) t = execManyReplace C rest t2 := by
  show (match execReplaceCols C C.fields vals t with
    | .error e => .error e
    | .ok t3 => execManyReplace C rest t3) = execManyReplace C rest t2
  rw [h]

theorem async_save_one_wf (C : CrudCtx) (o : ModelInst) (t : Table)
    (hwf : o.cells.map Prod.fst = C.fields) :
    (async_save_one C o t).res = .ok true ∧
    (async_save_one C o t).tbl =
      replacedTable C (mkCells C.fields o.cells) t := by
  have hlen : (o.cells.map Prod.snd).length = C.fields.length := by
    rw [← hwf]
    simp
  have hk : execReplaceCols C (o.cells.map Prod.fst) (o.cells.map Prod.snd) t
      = .ok (replacedTable C (mkCells C.fields o.cells) t) := by
    rw [hwf, execReplaceCols_fields C _ t hlen, ← hwf,
      list_zip_map_fst_snd]
  constructor
  · simp only [async_save_one, hk]
  · simp only [async_save_one, hk]

/-- C8: for three instances of one model (each carrying its full declared
field set, with pairwise distinct primary-key values when a primary key is
declared), the batched `save_many(a, b, c)` succeeds and produces exactly the
final stored state of `save_one(a)` then `save_one(b)` then `save_one(c)`,
each of which also succeeds. -/
theorem C8_save_many_equivalence (C : CrudCtx) (a b c : ModelInst) (t : Table)
    (ha : a.cells.map Prod.fst = C.fields)
    (hb : b.cells.map Prod.fst = C.fields)
    (hc : c.cells.map Prod.fst = C.fields)
    (hdistinct : ∀ p, C.pk = some p →
      lookupCell p a.cells ≠ lookupCell p b.cells ∧
      lookupCell p a.cells ≠ lookupCell p c.cells ∧
      lookupCell p b.cells ≠ lookupCell p c.cells) :
    (async_save_many C [a, b, c] t).res = .ok true ∧
    (async_save_one C a t).res = .ok true ∧
    (async_save_one C b (async_save_one C a t).tbl).res = .ok true ∧
    (async_save_one C c
      (async_save_one C b (async_save_one C a t).tbl).tbl).res = .ok true ∧
    (async_save_many C [a, b, c] t).tbl =
      (async_save_one C c
        (async_save_one C b (async_save_one C a t).tbl).tbl).tbl := by
  have la : (a.cells.map Prod.snd).length = C.fields.length := by
    rw [← ha]; simp
  have lb : (b.cells.map Prod.snd).length = C.fields.length := by
    rw [← hb]; simp
  have lc : (c.cells.map Prod.snd).length = C.fields.length := by
    rw [← hc]; simp
  have ea := async_save_one_wf C a t ha
  set t1 := (async_save_one C a t).tbl with ht1
  have eb := async_save_one_wf C b t1 hb
  set t2 := (async_save_one C b t1).tbl with ht2
  have ec := async_save_one_wf C c t2 hc
  have hza : C.fields.zip (a.cells.map Prod.snd) = a.cells := by
    rw [← ha, list_zip_map_fst_snd]
  have hzb : C.fields.zip (b.cells.map Prod.snd) = b.cells := by
    rw [← hb, list_zip_map_fst_snd]
  have hzc : C.fields.zip (c.cells.map Prod.snd) = c.cells := by
    rw [← hc, list_zip_map_fst_snd]
  have s1 : execReplaceCols C C.fields (a.cells.map Prod.snd) t = .ok t1 := by
    rw [execReplaceCols_fields C _ t la, hza, ea.2]
  have s2 : execReplaceCols C C.fields (b.cells.map Prod.snd) t1 = .ok t2 := by
    rw [execReplaceCols_fields C _ t1 lb, hzb, eb.2]
  have s3 : execReplaceCols C C.fields (c.cells.map Prod.snd) t2 =
      .ok (replacedTable C (mkCells C.fields c.cells) t2) := by
    rw [execReplaceCols_fields C _ t2 lc, hzc]
  have hmany : execManyReplace C
      [a.cells.map Prod.snd, b.cells.map Prod.snd, c.cells.map Prod.snd] t =
      .ok (replacedTable C (mkCells C.fields c.cells) t2) := by
    rw [execManyReplace_cons_ok C _ _ t t1 s1,
      execManyReplace_cons_ok C _ _ t1 t2 s2,
      execManyReplace_cons_ok C _ _ t2 _ s3]
    rfl
  refine ⟨?_, ea.1, eb.1, ec.1, ?_⟩
  · simp only [async_save_many, List.map_cons, List.map_nil, hmany]
  · simp only [async_save_many, List.map_cons, List.map_nil, hmany]
    exact ec.2.symm

theorem firstBadKey_none_of_valid (C : CrudCtx) (kws : Kws)
    (h : ∀ kv ∈ kws, C.fields.contains kv.1 = true) :
    firstBadKey C kws = none := by
  unfold firstBadKey
  rw [List.find?_eq_none.mpr]
  · rfl
  · intro kv hkv
    have hg : goodKey C kv.1 = true := by
      unfold goodKey
      rw [h kv hkv]
      rfl
    simp [hg]

theorem lookupCell_mkCells (cols : List String) (kws : Kws) (k : String)
    (hk : cols.contains k = true) :
    lookupCell k (mkCells cols kws) =
      some ((lookupCell k kws).getD .null) := by
  induction cols with
  | nil => simp [List.contains] at hk
  | cons c cs ih =>
    by_cases hc : c = k
    · subst hc
      simp [mkCells, lookupCell]
    · have hk2 : cs.contains k = true := by
        have hkm : k ∈ c :: cs := by simpa using hk
        rcases List.mem_cons.mp hkm with he | hm
        · exact absurd he.symm hc
        · exact List.elem_eq_true_of_mem hm
      have hcc : (c == k) = false := beq_eq_false_iff_ne.mpr hc
      simpa [mkCells, lookupCell, List.find?_cons, hcc] using ih hk2

theorem lookupCell_of_mem_nodup (kws : Kws)
    (hnd : (kws.map Prod.fst).Nodup) (k : String) (v : Val)
    (hm : (k, v) ∈ kws) : lookupCell k kws = some v := by
  induction kws with
  | nil => simp at hm
  | cons kv rest ih =>
    rcases List.mem_cons.mp hm with he | hr
    · subst he
      simp [lookupCell, List.find?_cons]
    · have hnd2 : (rest.map Prod.fst).Nodup := (List.nodup_cons.mp hnd).2
      have hk1 : kv.1 ∉ rest.map Prod.fst := (List.nodup_cons.mp hnd).1
      have hne : (kv.1 == k) = false := by
        refine beq_eq_false_iff_ne.mpr (fun e => hk1 ?_)
        rw [e]
        exact List.mem_map.mpr ⟨(k, v), hr, rfl⟩
      simpa [lookupCell, List.find?_cons, hne] using ih hnd2 hr

theorem cellEq_refl (v : Val) (hv : v ≠ .null) : cellEq v v = true := by
  cases v with
  | null => exact absurd rfl hv
  | int i => simp [cellEq]
  | text s => simp [cellEq]

theorem rowMatches_mkCells (C : CrudCtx) (kws : Kws) (rid : Nat)
    (hall : ∀ kv ∈ kws, C.fields.contains kv.1 = true)
    (hnr : ∀ kv ∈ kws, kv.1 ≠ "rowid")
    (hnodup : (kws.map Prod.fst).Nodup)
    (hnn : ∀ kv ∈ kws, kv.2 ≠ .null) :
    rowMatches kws { rowid := rid, cells := mkCells C.fields kws } = true := by
  unfold rowMatches
  rw [List.all_eq_true]
  intro kv hkv
  have hr : (kv.1 == "rowid") = false := beq_eq_false_iff_ne.mpr (hnr kv hkv)
  have hlk : lookupCell kv.1 (mkCells C.fields kws) =
      some ((lookupCell kv.1 kws).getD .null) :=
    lookupCell_mkCells C.fields kws kv.1 (hall kv hkv)
  have hv : lookupCell kv.1 kws = some kv.2 :=
    lookupCell_of_mem_nodup kws hnodup kv.1 kv.2 hkv
  simp only [cellValue, hr, if_false, hlk, hv, Option.getD_some]
  exact cellEq_refl kv.2 (hnn kv hkv)

theorem async_get_or_none_parts (C : CrudCtx) (kws : Kws) (t : Table)
    (hne : kws ≠ []) :
    (async_get_or_none C kws t).res =
      (match execSelect C kws t with
      | .error e => .error e
      | .ok rows => .ok (rows.head?.map readObj)) ∧
    (async_get_or_none C kws t).tbl = t := by
  cases kws with
  | nil => exact absurd rfl hne
  | cons kv rest =>
    simp only [async_get_or_none, asyncGetOrNoneAnyStmt, List.isEmpty_cons,
      Bool.false_eq_true, if_false]
    cases hS : execSelect C (kv :: rest) t <;> simp

/-- The table and row produced by a successful insert of `kws` into `t`
(proof-side abbreviations of the store model's insert result). -/
def insertedRow (C : CrudCtx) (kws : Kws) (t : Table) : StoredRow :=
  { rowid := t.nextRowid, cells := mkCells C.fields kws }

def insertedTable (C : CrudCtx) (kws : Kws) (t : Table) : Table :=
  { rows := t.rows ++ [insertedRow C kws t], nextRowid := t.nextRowid + 1 }

/-- C7: `get_or_create` first attempts the lookup and, on a miss, attempts
`insert_or_ignore` reporting `created = true`; consequently, starting from a
table where no row matches the (validated, non-NULL, duplicate-free,
non-conflicting) predicate, two successive calls return the same instance —
with the same captured row identity — with `created` true on the first call
and false on the second, and the second call leaves the store untouched. -/
theorem C7_get_or_create_idempotent (C : CrudCtx) (kws : Kws) (t : Table)
    (hne : kws ≠ [])
    (hall : ∀ kv ∈ kws, C.fields.contains kv.1 = true)
    (hnr : ∀ kv ∈ kws, kv.1 ≠ "rowid")
    (hnodup : (kws.map Prod.fst).Nodup)
    (hnn : ∀ kv ∈ kws, kv.2 ≠ .null)
    (hnomatch : ∀ r ∈ t.rows, rowMatches kws r = false)
    (hnoconf : insertConflict C t (mkCells C.fields kws) = false) :
    (async_get_or_create C kws t).res =
      .ok (some (row2obj (mkCells C.fields kws)
        (some (t.nextRowid : Int))), true) ∧
    (async_get_or_create C kws
        (async_get_or_create C kws t).tbl).res =
      .ok (some (row2obj (mkCells C.fields kws)
        (some (t.nextRowid : Int))), false) ∧
    (async_get_or_create C kws (async_get_or_create C kws t).tbl).tbl =
      (async_get_or_create C kws t).tbl := by
  have hBad := firstBadKey_none_of_valid C kws hall
  have hsel1 : execSelect C kws t = .ok [] := by
    unfold execSelect
    rw [hBad, List.filter_eq_nil_iff.mpr
      (fun r hr => by simp [hnomatch r hr])]
  have g1 := async_get_or_none_parts C kws t hne
  have g1res : (async_get_or_none C kws t).res = .ok none := by
    rw [g1.1, hsel1]
    rfl
  have hexecI : execInsert C true kws t =
      .ok (insertedTable C kws t, some (insertedRow C kws t)) := by
    unfold execInsert insertedTable insertedRow
    rw [hBad]
    simp [hnoconf]
  have hins := async_do_insert_res C true kws t hne
  have hinsres : (async_insert_or_ignore C kws t).res =
      .ok (some (row2obj (mkCells C.fields kws)
        (some (t.nextRowid : Int)))) := by
    rw [show async_insert_or_ignore C kws t =
      async_do_insert C true true kws t from rfl, hins.1, hexecI]
    rfl
  have hinstbl : (async_insert_or_ignore C kws t).tbl =
      insertedTable C kws t := by
    rw [show async_insert_or_ignore C kws t =
      async_do_insert C true true kws t from rfl, hins.2, hexecI]
  have ho1res : (async_get_or_create C kws t).res =
      .ok (some (row2obj (mkCells C.fields kws)
        (some (t.nextRowid : Int))), true) := by
    simp only [async_get_or_create, g1res, g1.2, hinsres]
  have ho1tbl : (async_get_or_create C kws t).tbl =
      insertedTable C kws t := by
    simp only [async_get_or_create, g1res, g1.2, hinsres, hinstbl]
  have hfl : (t.rows ++ [insertedRow C kws t]).filter (rowMatches kws) =
      [insertedRow C kws t] := by
    rw [List.filter_append, List.filter_eq_nil_iff.mpr
      (fun r hr => by simp [hnomatch r hr]), List.filter_cons, if_pos (by
        exact rowMatches_mkCells C kws t.nextRowid hall hnr hnodup hnn)]
    rfl
  have hsel2 : execSelect C kws (insertedTable C kws t) =
      .ok [insertedRow C kws t] := by
    simp only [execSelect, hBad, insertedTable]
    rw [hfl]
  have g2 := async_get_or_none_parts C kws (insertedTable C kws t) hne
  have g2res : (async_get_or_none C kws (insertedTable C kws t)).res =
      .ok (some (row2obj (mkCells C.fields kws)
        (some (t.nextRowid : Int)))) := by
    rw [g2.1, hsel2]
    rfl
  refine ⟨ho1res, ?_, ?_⟩
  · rw [ho1tbl]
    simp only [async_get_or_create, g2res]
  · rw [ho1tbl]
    simp only [async_get_or_create, g2res, g2.2]

/-- User instances used to exercise the batched-save equivalence. -/
def exSaveA : ModelInst :=
  { cells := [("id", .int 1), ("name", .text "a")], rowid := none }

def exSaveB : ModelInst :=
  { cells := [("id", .int 2), ("name", .text "b")], rowid := none }

def exSaveC : ModelInst :=
  { cells := [("id", .int 3), ("name", .text "c")], rowid := none }

/-- Witness for C7 at the spec §8 example: `get_or_create(id=7, name='x')`
on an empty table creates and then finds the same instance. -/
theorem C7_witness :
    (async_get_or_create exUserCtx [("id", .int 7), ("name", .text "x")]
      exEmptyTable).res =
      .ok (some (row2obj
        (mkCells exUserCtx.fields [("id", .int 7), ("name", .text "x")])
        (some (exEmptyTable.nextRowid : Int))), true) ∧
    (async_get_or_create exUserCtx [("id", .int 7), ("name", .text "x")]
        (async_get_or_create exUserCtx [("id", .int 7), ("name", .text "x")]
          exEmptyTable).tbl).res =
      .ok (some (row2obj
        (mkCells exUserCtx.fields [("id", .int 7), ("name", .text "x")])
        (some (exEmptyTable.nextRowid : Int))), false) ∧
    (async_get_or_create exUserCtx [("id", .int 7), ("name", .text "x")]
        (async_get_or_create exUserCtx [("id", .int 7), ("name", .text "x")]
          exEmptyTable).tbl).tbl =
      (async_get_or_create exUserCtx [("id", .int 7), ("name", .text "x")]
        exEmptyTable).tbl :=
  C7_get_or_create_idempotent exUserCtx
    [("id", .int 7), ("name", .text "x")] exEmptyTable
    (by decide) (by decide) (by decide) (by decide) (by decide)
    (by decide) (by decide)

/-- Witness for C8: saving three users in one batch from a one-row table
yields the state of the three sequential single saves. -/
theorem C8_witness :
    (async_save_many exUserCtx [exSaveA, exSaveB, exSaveC] exUserTable).res =
      .ok true ∧
    (async_save_many exUserCtx [exSaveA, exSaveB, exSaveC] exUserTable).tbl =
      (async_save_one exUserCtx exSaveC
        ((async_save_one exUserCtx exSaveB
          ((async_save_one exUserCtx exSaveA exUserTable).tbl)).tbl)).tbl := by
  obtain ⟨h1, -, -, -, h5⟩ :=
    C8_save_many_equivalence exUserCtx exSaveA exSaveB exSaveC exUserTable
      rfl rfl rfl (by
        intro p hp
        injection hp with hp
        subst hp
        exact ⟨by decide, by decide, by decide⟩)
  exact ⟨h1, h5⟩

theorem execSelect_error_shape (C : CrudCtx) (kws : Kws) (t : Table)
    (e : DBError) (h : execSelect C kws t = .error e) :
    ∃ m, e = .operationalError m := by
  unfold execSelect at h
  cases hB : firstBadKey C kws with
  | some k =>
    rw [hB] at h
    injection h with h2
    exact ⟨_, h2.symm⟩
  | none =>
    rw [hB] at h
    exact Except.noConfusion h

theorem verify_kws_ok_valid (C : CrudCtx) (kws : Kws)
    (h : verify_kws C kws = .ok ()) :
    ∀ kv ∈ kws, C.fields.contains kv.1 = true := by
  intro kv hkv
  unfold verify_kws at h
  cases hF : kws.find? (fun kv => !(C.fields.contains kv.1)) with
  | some kv2 =>
    rw [hF] at h
    exact Except.noConfusion h
  | none =>
    have := List.find?_eq_none.mp hF kv hkv
    simpa using this

/-- C1, amended: the blocking variant's getOrNone / insert / insertOrIgnore /
getOrCreate / getMany validate field keywords up front: an unknown keyword
makes them fail with the naming error (KeyError) leaving the store untouched
and sending no statement. The suspending variant performs no validation: its
getOrNone / getMany build the statement with the unknown keyword and send it
to the store (one statement reaches the store and the failure, if any, is the
store's own error, not a naming error). -/
theorem C1_amended (C : CrudCtx) (kws : Kws) (t : Table)
    (order_by : List (String × String)) (limit : Option Int)
    (hbad : ∃ kv ∈ kws, C.fields.contains kv.1 = false) :
    (isNamingError (sync_get_or_none C kws t).res = true ∧
      (sync_get_or_none C kws t).sent = [] ∧
      (sync_get_or_none C kws t).tbl = t) ∧
    (isNamingError (sync_insert C kws t).res = true ∧
      (sync_insert C kws t).sent = [] ∧
      (sync_insert C kws t).tbl = t) ∧
    (isNamingError (sync_insert_or_ignore C kws t).res = true ∧
      (sync_insert_or_ignore C kws t).sent = [] ∧
      (sync_insert_or_ignore C kws t).tbl = t) ∧
    (isNamingError (sync_get_or_create C kws t).res = true ∧
      (sync_get_or_create C kws t).sent = [] ∧
      (sync_get_or_create C kws t).tbl = t) ∧
    (isNamingError (sync_get_many C order_by limit kws t).res = true ∧
      (sync_get_many C order_by limit kws t).sent = [] ∧
      (sync_get_many C order_by limit kws t).tbl = t) ∧
    (isNamingError (async_get_or_none C kws t).res = false ∧
      (async_get_or_none C kws t).sent.length = 1) ∧
    (isNamingError (async_get_many C kws t).res = false ∧
      (async_get_many C kws t).sent.length = 1) := by
  obtain ⟨kv, hkvmem, hkvbad⟩ := hbad
  have hFs : (kws.find? (fun kv => !(C.fields.contains kv.1))).isSome := by
    rw [List.find?_isSome]
    refine ⟨kv, hkvmem, ?_⟩
    show (!(C.fields.contains kv.1)) = true
    rw [hkvbad]
    rfl
  obtain ⟨kv2, hF⟩ := Option.isSome_iff_exists.mp hFs
  have hV : verify_kws C kws = .error (.keyError ("\"" ++ kv2.1
      ++ "\" is not a field of the \"" ++ C.modelName
      ++ "\" and cannot be used in queries")) := by
    unfold verify_kws
    rw [hF]
  have hne : kws ≠ [] := by
    intro he
    rw [he] at hkvmem
    simp at hkvmem
  refine ⟨?_, ?_, ?_, ?_, ?_, ?_, ?_⟩
  · exact ⟨by simp only [sync_get_or_none, hV]; rfl,
      by simp only [sync_get_or_none, hV],
      by simp only [sync_get_or_none, hV]⟩
  · exact ⟨by simp only [sync_insert, hV]; rfl,
      by simp only [sync_insert, hV],
      by simp only [sync_insert, hV]⟩
  · exact ⟨by simp only [sync_insert_or_ignore, hV]; rfl,
      by simp only [sync_insert_or_ignore, hV],
      by simp only [sync_insert_or_ignore, hV]⟩
  · exact ⟨by simp only [sync_get_or_create, hV]; rfl,
      by simp only [sync_get_or_create, hV],
      by simp only [sync_get_or_create, hV]⟩
  · exact ⟨by simp only [sync_get_many, hF]; rfl,
      by simp only [sync_get_many, hF],
      by simp only [sync_get_many, hF]⟩
  · cases kws with
    | nil => exact absurd rfl hne
    | cons a l =>
      constructor
      · simp only [async_get_or_none, asyncGetOrNoneAnyStmt,
          List.isEmpty_cons, Bool.false_eq_true, if_false]
        cases hS : execSelect C (a :: l) t with
        | error e =>
          rcases execSelect_error_shape C (a :: l) t e hS with ⟨m, rfl⟩
          rfl
        | ok rows => rfl
      · simp only [async_get_or_none, asyncGetOrNoneAnyStmt,
          List.isEmpty_cons, Bool.false_eq_true, if_false]
        cases hS : execSelect C (a :: l) t <;> rfl
  · cases kws with
    | nil => exact absurd rfl hne
    | cons a l =>
      constructor
      · simp only [async_get_many, asyncGetOrNoneAnyStmt,
          List.isEmpty_cons, Bool.false_eq_true, if_false]
        cases hS : execSelect C (a :: l) t with
        | error e =>
          rcases execSelect_error_shape C (a :: l) t e hS with ⟨m, rfl⟩
          rfl
        | ok rows => rfl
      · simp only [async_get_many, asyncGetOrNoneAnyStmt,
          List.isEmpty_cons, Bool.false_eq_true, if_false]
        cases hS : execSelect C (a :: l) t <;> rfl

/-- Witness for C1's amended statement at the unknown keyword `bogus`. -/
theorem C1_witness :
    isNamingError (sync_get_or_none exUserCtx [("bogus", .int 1)]
      exUserTable).res = true ∧
    (sync_get_or_none exUserCtx [("bogus", .int 1)] exUserTable).sent = [] ∧
    isNamingError (async_get_or_none exUserCtx [("bogus", .int 1)]
      exUserTable).res = false ∧
    (async_get_or_none exUserCtx [("bogus", .int 1)]
      exUserTable).sent.length = 1 := by
  obtain ⟨h1, -, -, -, -, h6, -⟩ :=
    C1_amended exUserCtx [("bogus", .int 1)] exUserTable [] none
      ⟨("bogus", .int 1), by decide, by decide⟩
  exact ⟨h1.1, h1.2.1, h6.1, h6.2⟩

/-- C2, amended: caller-supplied values appear only in the ordered
bound-parameter list — the statement text built for the keyword-predicate and
insert operations is a function of the keyword names alone (two keyword sets
with the same names yield the identical text, each carrying its own values as
the parameters). In the blocking variant a statement reaches the store only
after every keyword name passed validation against the field set; in the
suspending variant the lookup statements interpolate the caller's keyword
names without validation (refuted identifier claim: see the counterexample). -/
theorem C2_amended (C : CrudCtx) (kws kws2 : Kws) (t : Table)
    (order_by : List (String × String)) (limit : Option Int)
    (hkeys : kws.map (fun kv => kv.1) = kws2.map (fun kv => kv.1))
    (hne : kws ≠ []) :
    (∀ many, ∃ q,
      asyncGetOrNoneAnyStmt C many kws =
        .ok (q, kws.map (fun kv => kv.2)) ∧
      asyncGetOrNoneAnyStmt C many kws2 =
        .ok (q, kws2.map (fun kv => kv.2))) ∧
    (∀ ig ret, ∃ q,
      asyncInsertStmt C ig ret kws = .ok (q, kws.map (fun kv => kv.2)) ∧
      asyncInsertStmt C ig ret kws2 = .ok (q, kws2.map (fun kv => kv.2))) ∧
    ((for_get_or_none C.tablename kws).2 = kws.map (fun kv => kv.2) ∧
      (for_get_or_none C.tablename kws).1 =
        (for_get_or_none C.tablename kws2).1) ∧
    (∀ ig ret,
      (for_do_insert C.tablename ig ret kws).2 =
        kws.map (fun kv => kv.2) ∧
      (for_do_insert C.tablename ig ret kws).1 =
        (for_do_insert C.tablename ig ret kws2).1) ∧
    ((sync_get_or_none C kws t).sent ≠ [] →
      ∀ kv ∈ kws, C.fields.contains kv.1 = true) ∧
    ((sync_insert C kws t).sent ≠ [] →
      ∀ kv ∈ kws, C.fields.contains kv.1 = true) ∧
    ((sync_insert_or_ignore C kws t).sent ≠ [] →
      ∀ kv ∈ kws, C.fields.contains kv.1 = true) ∧
    ((sync_get_many C order_by limit kws t).sent ≠ [] →
      ∀ kv ∈ kws, C.fields.contains kv.1 = true) := by
  have hne2 : kws2 ≠ [] := by
    intro he
    rw [he] at hkeys
    exact hne (List.map_eq_nil_iff.mp hkeys)
  refine ⟨?_, ?_, ?_, ?_, ?_, ?_, ?_, ?_⟩
  · intro many
    cases kws with
    | nil => exact absurd rfl hne
    | cons a l =>
      cases kws2 with
      | nil => exact absurd rfl hne2
      | cons b m =>
        refine ⟨"SELECT rowid, * FROM " ++ C.tablename ++ " WHERE ("
          ++ String.intercalate (" AND ")
            (((a :: l).map (fun kv => kv.1)).map (fun k => k ++ " = ?"))
          ++ ") " ++ (if !many then "LIMIT 1;" else ";"), ?_, ?_⟩
        · simp only [asyncGetOrNoneAnyStmt, List.isEmpty_cons,
            Bool.false_eq_true, if_false]
        · simp only [asyncGetOrNoneAnyStmt, List.isEmpty_cons,
            Bool.false_eq_true, if_false, hkeys]
  · intro ig ret
    cases kws with
    | nil => exact absurd rfl hne
    | cons a l =>
      cases kws2 with
      | nil => exact absurd rfl hne2
      | cons b m =>
        have hlen : ((a :: l).map (fun kv => kv.1)).length =
            ((b :: m).map (fun kv => kv.1)).length := by
          rw [hkeys]
        refine ⟨(if ig then "INSERT OR IGNORE " else "INSERT ")
          ++ "INTO " ++ C.tablename ++ " ("
          ++ String.intercalate (", ") ((a :: l).map (fun kv => kv.1))
          ++ ") VALUES ("
          ++ String.intercalate (", ")
            (List.replicate ((a :: l).map (fun kv => kv.1)).length "?")
          ++ ")" ++ (if ret then " RETURNING *;" else ";"), ?_, ?_⟩
        · simp only [asyncInsertStmt, List.isEmpty_cons,
            Bool.false_eq_true, if_false]
        · simp only [asyncInsertStmt, List.isEmpty_cons,
            Bool.false_eq_true, if_false, hkeys]
  · constructor
    · rfl
    · show "SELECT rowid, * FROM " ++ C.tablename ++ " WHERE ("
        ++ String.intercalate (" AND ")
          (kws.map (fun kv => kv.1 ++ " = ?")) ++ ") LIMIT 1;" = _
      have : kws.map (fun kv => kv.1 ++ " = ?") =
          kws2.map (fun kv => kv.1 ++ " = ?") := by
        have h1 : kws.map (fun kv => kv.1 ++ " = ?") =
            (kws.map (fun kv => kv.1)).map (fun k => k ++ " = ?") := by
          rw [List.map_map]
          rfl
        have h2 : kws2.map (fun kv => kv.1 ++ " = ?") =
            (kws2.map (fun kv => kv.1)).map (fun k => k ++ " = ?") := by
          rw [List.map_map]
          rfl
        rw [h1, h2, hkeys]
      rw [this]
      rfl
  · intro ig ret
    constructor
    · rfl
    · show (if ig then "INSERT OR IGNORE " else "INSERT ")
        ++ "INTO " ++ C.tablename ++ " ("
        ++ String.intercalate (", ") (kws.map (fun kv => kv.1))
        ++ ") VALUES ("
        ++ String.intercalate (", ")
          (List.replicate (kws.map (fun kv => kv.1)).length "?")
        ++ ")" ++ (if ret then " RETURNING *;" else ";") = _
      rw [hkeys]
      rfl
  · intro hsent
    cases hV : verify_kws C kws with
    | error e =>
      exfalso
      apply hsent
      simp only [sync_get_or_none, hV]
    | ok u =>
      cases u
      exact verify_kws_ok_valid C kws hV
  · intro hsent
    cases hV : verify_kws C kws with
    | error e =>
      exfalso
      apply hsent
      simp only [sync_insert, hV]
    | ok u =>
      cases u
      exact verify_kws_ok_valid C kws hV
  · intro hsent
    cases hV : verify_kws C kws with
    | error e =>
      exfalso
      apply hsent
      simp only [sync_insert_or_ignore, hV]
    | ok u =>
      cases u
      exact verify_kws_ok_valid C kws hV
  · intro hsent
    cases hF : kws.find? (fun kv => !(C.fields.contains kv.1)) with
    | some kv =>
      exfalso
      apply hsent
      simp only [sync_get_many, hF]
    | none =>
      intro kv hkv
      have := List.find?_eq_none.mp hF kv hkv
      simpa using this

/-- Witness for C2's amended statement: two predicates over the same keyword
name `id` with different values produce the identical statement text with the
respective values as parameters. -/
theorem C2_witness :
    (∀ many, ∃ q,
      asyncGetOrNoneAnyStmt exUserCtx many [("id", Val.int 1)] =
        .ok (q, [Val.int 1]) ∧
      asyncGetOrNoneAnyStmt exUserCtx many [("id", Val.int 2)] =
        .ok (q, [Val.int 2])) ∧
    (for_get_or_none exUserCtx.tablename [("id", Val.int 1)]).2 =
      [Val.int 1] := by
  obtain ⟨h1, -, h3, -⟩ :=
    C2_amended exUserCtx [("id", Val.int 1)] [("id", Val.int 2)]
      exUserTable [] none rfl (by decide)
  exact ⟨fun many => by
    obtain ⟨q, hq1, hq2⟩ := h1 many
    exact ⟨q, by simpa using hq1, by simpa using hq2⟩, h3.1⟩

/-- C4, amended: the blocking `delete_one` (via the spec-modelled
`queries.for_delete_one`) resolves identity as claimed — declared primary key
first, else captured rowid, else the "id"-substring heuristic, failing with
BadQueryError before any statement is sent when the heuristic set is empty.
The suspending `delete_one` instead always uses the "id"-substring heuristic:
it ignores the primary key and rowid, and with an empty heuristic set it
sends a malformed statement that the store rejects (no BadQueryError), the
table left unchanged. -/
theorem C4_amended (C : CrudCtx) (obj : ModelInst) (t : Table) :
    (∀ p, C.pk = some p → C.fields.contains p = true →
      (sync_delete_one C obj t).res = .ok true ∧
      (sync_delete_one C obj t).tbl.rows = t.rows.filter (fun r =>
        !(rowMatches [(p, (lookupCell p obj.cells).getD .null)] r)) ∧
      (sync_delete_one C obj t).sent.length = 1) ∧
    (∀ rid, C.pk = none → obj.rowid = some rid →
      (sync_delete_one C obj t).res = .ok true ∧
      (sync_delete_one C obj t).tbl.rows = t.rows.filter (fun r =>
        !(rowMatches [("rowid", Val.int rid)] r)) ∧
      (sync_delete_one C obj t).sent.length = 1) ∧
    (C.pk = none → obj.rowid = none → idColsOf obj = [] →
      (∃ m, (sync_delete_one C obj t).res = .error (.badQueryError m)) ∧
      (sync_delete_one C obj t).sent = [] ∧
      (sync_delete_one C obj t).tbl = t) ∧
    (idColsOf obj = [] →
      (async_delete_one C obj t).res =
        .error (.operationalError ("near \")\": syntax error")) ∧
      (async_delete_one C obj t).sent.length = 1 ∧
      (async_delete_one C obj t).tbl = t) := by
  refine ⟨?_, ?_, ?_, ?_⟩
  · intro p hpk hpf
    have hB : firstBadKey C [(p, (lookupCell p obj.cells).getD .null)] =
        none := by
      unfold firstBadKey
      rw [List.find?_cons]
      have : (!(goodKey C p)) = false := by
        unfold goodKey
        rw [hpf]
        rfl
      rw [this]
      rfl
    have hD : execDeleteWhere C
        [(p, (lookupCell p obj.cells).getD .null)] t =
        .ok { t with rows := t.rows.filter (fun r =>
          !(rowMatches [(p, (lookupCell p obj.cells).getD .null)] r)) } := by
      unfold execDeleteWhere
      rw [hB]
    have hI : identityPreds C obj =
        .ok [(p, (lookupCell p obj.cells).getD .null)] := by
      unfold identityPreds
      rw [hpk]
    refine ⟨?_, ?_, ?_⟩ <;>
      simp only [sync_delete_one, hI, hD] <;> rfl
  · intro rid hpk hrid
    have hB : firstBadKey C [("rowid", Val.int rid)] = none := by
      unfold firstBadKey
      rw [List.find?_cons]
      have : (!(goodKey C "rowid")) = false := by
        unfold goodKey
        simp
      rw [this]
      rfl
    have hD : execDeleteWhere C [("rowid", Val.int rid)] t =
        .ok { t with rows := t.rows.filter (fun r =>
          !(rowMatches [("rowid", Val.int rid)] r)) } := by
      unfold execDeleteWhere
      rw [hB]
    have hI : identityPreds C obj = .ok [("rowid", Val.int rid)] := by
      unfold identityPreds
      rw [hpk, hrid]
    refine ⟨?_, ?_, ?_⟩ <;>
      simp only [sync_delete_one, hI, hD] <;> rfl
  · intro hpk hrid hid
    have hI : identityPreds C obj = .error (.badQueryError
        ("delete_one requires a primary key, a rowid or id-like fields")) := by
      unfold identityPreds
      rw [hpk, hrid, hid]
      rfl
    refine ⟨⟨"delete_one requires a primary key, a rowid or id-like fields",
      ?_⟩, ?_, ?_⟩ <;> simp only [sync_delete_one, hI]
  · intro hid
    refine ⟨?_, ?_, ?_⟩ <;>
      simp only [async_delete_one, hid, List.zip_nil_left,
        execDeleteCommaList] <;> rfl

/-- Witness for C4's amended statement: models with a primary key (blocking
variant deletes by it) and without identity information (both failure modes). -/
theorem C4_witness :
    ((sync_delete_one exScoreCtx exScoreObj exScoreTable).res = .ok true ∧
      (sync_delete_one exScoreCtx exScoreObj exScoreTable).sent.length = 1) ∧
    ((async_delete_one exScoreCtx exScoreObj exScoreTable).res =
      .error (.operationalError ("near \")\": syntax error")) ∧
      (async_delete_one exScoreCtx exScoreObj exScoreTable).tbl =
        exScoreTable) := by
  obtain ⟨h1, -, -, h4⟩ := C4_amended exScoreCtx exScoreObj exScoreTable
  obtain ⟨h1a, -, h1c⟩ := h1 "num" rfl (by decide)
  obtain ⟨h4a, -, h4c⟩ := h4 (by decide)
  exact ⟨⟨h1a, h1c⟩, ⟨h4a, h4c⟩⟩

/-- C6, amended: the two variants are not identical in general — on the same
input the blocking `delete_many` returns True where the suspending one
returns None (and the suspending `get_many` exposes no ordering or limit
options, performs no keyword validation, and `delete_one` / `delete_many`
build different statements). For `insert` and `insert_or_ignore` with
validated, non-empty keywords the two variants do produce identical outcomes:
the same result or error, the same statement sent, and the same final stored
state. -/
theorem C6_amended (C : CrudCtx) (kws : Kws) (t : Table)
    (h : ∀ kv ∈ kws, C.fields.contains kv.1 = true) (hne : kws ≠ []) :
    sync_insert C kws t = async_insert C kws t ∧
    sync_insert_or_ignore C kws t = async_insert_or_ignore C kws t ∧
    (sync_delete_many exGuildCtx [exGuildObj1r, exGuildObj2r]
        exGuildTable).res ≠
      (async_delete_many exGuildCtx [exGuildObj1r, exGuildObj2r]
        exGuildTable).res := by
  have hF : kws.find? (fun kv => !(C.fields.contains kv.1)) = none :=
    List.find?_eq_none.mpr (fun kv hkv => by
      show ¬((!(C.fields.contains kv.1)) = true)
      rw [h kv hkv]
      decide)
  have hV : verify_kws C kws = .ok () := by
    unfold verify_kws
    rw [hF]
  cases kws with
  | nil => exact absurd rfl hne
  | cons a l =>
    refine ⟨?_, ?_, by decide⟩
    · simp only [sync_insert, hV, async_insert, sync_do_insert,
        async_do_insert, for_do_insert, asyncInsertStmt, List.isEmpty_cons,
        Bool.false_eq_true, if_false]
    · simp only [sync_insert_or_ignore, hV, async_insert_or_ignore,
        sync_do_insert, async_do_insert, for_do_insert, asyncInsertStmt,
        List.isEmpty_cons, Bool.false_eq_true, if_false]

/-- Witness for C6's amended statement at a validated insert. -/
theorem C6_witness :
    sync_insert exUserCtx [("id", .int 5), ("name", .text "e")] exUserTable =
      async_insert exUserCtx [("id", .int 5), ("name", .text "e")]
        exUserTable ∧
    (sync_delete_many exGuildCtx [exGuildObj1r, exGuildObj2r]
        exGuildTable).res ≠
      (async_delete_many exGuildCtx [exGuildObj1r, exGuildObj2r]
        exGuildTable).res := by
  obtain ⟨h1, -, h3⟩ :=
    C6_amended exUserCtx [("id", .int 5), ("name", .text "e")] exUserTable
      (by decide) (by decide)
  exact ⟨h1, h3⟩

end Ardilla
